import Mathlib

/-!
Verification of the CloudWatch Insights metrics fetcher
(`braket/jobs/metrics_data/cwl_insights_metrics_fetcher.py`).

The fetcher submits one Insights query over a fixed log group, polls the
query's status on a fixed interval until a terminal state or a wall-clock
budget is exhausted, and folds the matched records into a metrics table
through a per-call `LogMetricsParser` instance.

Embedding conventions:
* the remote logs client is a record of pure functions (`LogsClient`);
  the n-th call to `get_query_results` for a query id is indexed by n;
* wall-clock time is rational; the only time that passes inside the poll
  loop is the `time.sleep(poll_interval_seconds)` of the non-terminal
  branch, so at the k-th status check the clock reads `k * interval`
  past the instant at which `timeout_time` was computed;
* `MetricsRetrievalError` is the `Except.error` branch carrying the
  formatted message; `logger.warning` calls are collected in a list;
* the external `LogMetricsParser` collaborator is modelled at its
  interface: its state is the exact sequence of `parse_log_message`
  ingest calls, and `get_parsed_metrics` is an arbitrary function of
  that sequence and the opaque metric type / statistic selectors.
-/

namespace Braket

/-- One field/value entry of a CloudWatch Insights result line.  A raw
record (`result_entry` in the Python source) is a list of these. -/
structure LogField where
  field : String
  value : String
deriving DecidableEq

/-- A raw record returned by CloudWatch Insights: a list of field/value
entries such as `@message` and `@timestamp`. -/
abbrev RawRecord := List LogField

/-- One response of the logs client's `get_query_results` operation:
the query status string and the matched records. -/
structure QueryResponse where
  status : String
  results : List RawRecord
deriving DecidableEq

/-- State of one `LogMetricsParser` instance, modelled at its interface
boundary: the sequence of (timestamp, message) pairs passed to
`parse_log_message`, in call order.  A fresh instance has an empty
trace. -/
structure LogMetricsParser where
  trace : List (Option String × String)
deriving DecidableEq

/-- Constructor call `LogMetricsParser()`: a fresh parser with no
ingested lines. -/
def LogMetricsParser.new : LogMetricsParser := ⟨[]⟩

/-- Method `parser.parse_log_message(timestamp, message)`: records one
ingest call at the end of the trace. -/
def LogMetricsParser.parse_log_message (p : LogMetricsParser)
    (timestamp : Option String) (message : String) : LogMetricsParser :=
  ⟨p.trace ++ [(timestamp, message)]⟩

/-- Python `x or d` for an optional integer argument: `None` and `0`
are falsy, anything else is returned unchanged. -/
def orIntDefault (x : Option Int) (d : Int) : Int :=
  match x with
  | none => d
  | some v => if v = 0 then d else v

/-- Python `x or d` for an optional string argument: `None` and the
empty string are falsy. -/
def orStrDefault (x : Option String) (d : String) : String :=
  match x with
  | none => d
  | some s => if s = "" then d else s

/-- Static method `_get_element_from_log_line`: the value of the first
entry of the record whose `field` equals `element_name`, or `none`. -/
def get_element_from_log_line (element_name : String) (log_line : RawRecord) :
    Option String :=
  (log_line.find? (fun e => e.field == element_name)).map LogField.value

/-- Method `_parse_log_line`: extract `@message`; if it is truthy
(present and non-empty), extract `@timestamp` and ingest the pair into
the parser; otherwise leave the parser untouched. -/
def parse_log_line (result_entry : RawRecord) (p : LogMetricsParser) :
    LogMetricsParser :=
  match get_element_from_log_line "@message" result_entry with
  | none => p
  | some m =>
    if m = "" then p
    else p.parse_log_message (get_element_from_log_line "@timestamp" result_entry) m

/-- Method `_parse_log_query_results`: create a fresh parser, ingest
every result in order, then call `get_parsed_metrics` once with the
caller's metric type and statistic.  The finalization operation
`get_parsed_metrics` of the external parser is an arbitrary function of
the ingest trace and the two opaque selectors. -/
def parse_log_query_results {MT ST TBL : Type}
    (get_parsed_metrics : List (Option String × String) → MT → ST → TBL)
    (results : List RawRecord) (metric_type : MT) (statistic : ST) : TBL :=
  let parser := results.foldl (fun p r => parse_log_line r p) LogMetricsParser.new
  get_parsed_metrics parser.trace metric_type statistic

/-- Warning text logged when the poll budget is exhausted. -/
def timeoutWarning (query_id : String) : String :=
  "Timed out waiting for query " ++ query_id ++ "."

/-- Message of the `MetricsRetrievalError` raised on a `Failed` or
`Cancelled` status. -/
def failureMessage (query_id status : String) : String :=
  "Query " ++ query_id ++ " failed with status " ++ status ++ "."

deriving instance DecidableEq for Except

/-- Observable outcome of `_get_metrics_results_sync`: the returned
record list or the raised error, the warnings logged, the number of
`get_query_results` calls issued, and the total time slept. -/
structure PollOutcome where
  result : Except String (List RawRecord)
  warnings : List String
  numPolls : Nat
  elapsed : ℚ
deriving DecidableEq

/-- Outcome of falling out of the poll loop after `k` status checks:
an empty record list, one warning, no error. -/
def timedOutOutcome (query_id : String) (k : Nat) (interval : ℚ) : PollOutcome :=
  ⟨Except.ok [], [timeoutWarning query_id], k, (k : ℚ) * interval⟩

/-- Loop body of `_get_metrics_results_sync`.  `k` counts the status
checks already performed, so the clock at the top of the iteration
reads `k * interval` past the instant `timeout_time` was computed, and
the `while time.time() < timeout_time` guard is `k * interval <
timeout`.  The fuel argument is an upper bound on the remaining
iterations; `get_metrics_results_sync` supplies enough fuel that the
guard, not the fuel, ends the loop, and running out of fuel coincides
with the guard-failure outcome. -/
def pollLoop (svc : Nat → QueryResponse) (query_id : String)
    (interval timeout : ℚ) : Nat → Nat → PollOutcome
  | 0, k => timedOutOutcome query_id k interval
  | fuel + 1, k =>
    if (k : ℚ) * interval < timeout then
      if (svc k).status ∈ ["Failed", "Cancelled"] then
        ⟨Except.error (failureMessage query_id (svc k).status), [], k + 1, (k : ℚ) * interval⟩
      else if (svc k).status = "Complete" then
        ⟨Except.ok (svc k).results, [], k + 1, (k : ℚ) * interval⟩
      else
        pollLoop svc query_id interval timeout fuel (k + 1)
    else
      timedOutOutcome query_id k interval

/-- Upper bound on the number of iterations the guard `k * interval <
timeout` admits when the interval is positive. -/
def maxPolls (interval timeout : ℚ) : Nat := ⌈timeout / interval⌉₊

/-- Method `_get_metrics_results_sync`: run the poll loop from the
first status check with sufficient fuel. -/
def get_metrics_results_sync (svc : Nat → QueryResponse) (query_id : String)
    (interval timeout : ℚ) : PollOutcome :=
  pollLoop svc query_id interval timeout (maxPolls interval timeout + 1) 0

/-- Class constant `LOG_GROUP_NAME`. -/
def LOG_GROUP_NAME : String := "/aws/braket/jobs"

/-- Class constant `QUERY_DEFAULT_JOB_DURATION = 3 * 60 * 60`. -/
def QUERY_DEFAULT_JOB_DURATION : Int := 3 * 60 * 60

/-- Keyword arguments of the `start_query` call submitted to the logs
client. -/
structure StartQueryArgs where
  logGroupName : String
  startTime : Int
  endTime : Int
  queryString : String
  limit : Nat
deriving DecidableEq

/-- Query-construction part of `get_metrics_for_job`: resolve the time
window and the stream name, and build the `start_query` arguments.
`now` is the value of `int(time.time())` at the call.  `streamPfx` is
the optional `stream_prefix` argument. -/
def buildStartQueryArgs (job_name : String)
    (job_start_time job_end_time : Option Int)
    (streamPfx : Option String) (now : Int) : StartQueryArgs :=
  let query_end_time := orIntDefault job_end_time now
  let query_start_time :=
    orIntDefault job_start_time (query_end_time - QUERY_DEFAULT_JOB_DURATION)
  let effectivePfx := orStrDefault streamPfx job_name
  ⟨LOG_GROUP_NAME, query_start_time, query_end_time,
    "fields @timestamp, @message | filter @logStream like /^" ++ effectivePfx ++
      "\\// | filter @message like /Metrics - /",
    10000⟩

/-- The logs client at its interface boundary: `start_query` yields a
query id for the submitted arguments, and `get_query_results` yields
the response to the n-th status poll of a query id. -/
structure LogsClient where
  start_query : StartQueryArgs → String
  get_query_results : String → Nat → QueryResponse

/-- Query id issued for one `get_metrics_for_job` call. -/
def submittedQueryId (client : LogsClient) (job_name : String)
    (job_start_time job_end_time : Option Int)
    (streamPfx : Option String) (now : Int) : String :=
  client.start_query (buildStartQueryArgs job_name job_start_time job_end_time streamPfx now)

/-- Status-poll responses the client serves for one
`get_metrics_for_job` call. -/
def queryResponses (client : LogsClient) (job_name : String)
    (job_start_time job_end_time : Option Int)
    (streamPfx : Option String) (now : Int) : Nat → QueryResponse :=
  client.get_query_results (submittedQueryId client job_name job_start_time job_end_time streamPfx now)

/-- Tail of `get_metrics_for_job` after the wait: a raised
`MetricsRetrievalError` propagates unchanged, a returned record list is
folded into the metrics table. -/
def finishFetch {MT ST TBL : Type}
    (get_parsed_metrics : List (Option String × String) → MT → ST → TBL)
    (metric_type : MT) (statistic : ST) (outcome : PollOutcome) :
    Except String TBL × List String :=
  match outcome.result with
  | Except.error e => (Except.error e, outcome.warnings)
  | Except.ok results =>
    (Except.ok (parse_log_query_results get_parsed_metrics results metric_type statistic),
      outcome.warnings)

/-- Method `get_metrics_for_job`: submit the query, wait for it, and
parse the results.  Returns the metrics table or the raised error,
paired with the warnings logged. -/
def get_metrics_for_job {MT ST TBL : Type} (client : LogsClient)
    (get_parsed_metrics : List (Option String × String) → MT → ST → TBL)
    (interval timeout : ℚ) (job_name : String)
    (metric_type : MT) (statistic : ST)
    (job_start_time job_end_time : Option Int)
    (streamPfx : Option String) (now : Int) :
    Except String TBL × List String :=
  finishFetch get_parsed_metrics metric_type statistic
    (get_metrics_results_sync
      (queryResponses client job_name job_start_time job_end_time streamPfx now)
      (submittedQueryId client job_name job_start_time job_end_time streamPfx now)
      interval timeout)

/-- One record's contribution to the ingest trace: the (timestamp,
message) pair when the record's first `@message` entry is present and
non-empty, nothing otherwise. -/
def ingestOf (r : RawRecord) : Option (Option String × String) :=
  match get_element_from_log_line "@message" r with
  | none => none
  | some m =>
    if m = "" then none
    else some (get_element_from_log_line "@timestamp" r, m)

/-- Ingesting one record appends that record's contribution (if any) to
the parser trace. -/
theorem parse_log_line_trace (r : RawRecord) (p : LogMetricsParser) :
    (parse_log_line r p).trace = p.trace ++ (ingestOf r).toList := by
  unfold parse_log_line ingestOf
  cases get_element_from_log_line "@message" r with
  | none => simp
  | some m =>
    by_cases hm : m = "" <;> simp [hm, LogMetricsParser.parse_log_message]

/-- Record with no truthy message leaves the parser unchanged. -/
theorem parse_log_line_of_ingestOf_none (r : RawRecord) (p : LogMetricsParser)
    (h : ingestOf r = none) : parse_log_line r p = p := by
  unfold ingestOf at h
  unfold parse_log_line
  cases hmsg : get_element_from_log_line "@message" r with
  | none => rfl
  | some m =>
    rw [hmsg] at h
    by_cases hm : m = ""
    · simp [hm]
    · simp [hm] at h

/-- Folding the per-record ingestion over a record list appends exactly
one trace entry per record with a present, non-empty `@message`, in
list order. -/
theorem foldl_parse_trace (results : List RawRecord) (p : LogMetricsParser) :
    (results.foldl (fun q r => parse_log_line r q) p).trace =
      p.trace ++ results.filterMap ingestOf := by
  induction results generalizing p with
  | nil => simp
  | cons r rest ih =>
    rw [List.foldl_cons, ih, List.filterMap_cons]
    cases h : ingestOf r with
    | none => rw [parse_log_line_of_ingestOf_none r p h]
    | some entry => rw [parse_log_line_trace, h]; simp

/-- Unfolded form of the aggregator: the finalization operation is
applied once, after all ingestion, to the in-order trace of retained
records. -/
theorem parse_log_query_results_eq {MT ST TBL : Type}
    (fin : List (Option String × String) → MT → ST → TBL)
    (results : List RawRecord) (mt : MT) (st : ST) :
    parse_log_query_results fin results mt st =
      fin (results.filterMap ingestOf) mt st := by
  simp only [parse_log_query_results]
  rw [foldl_parse_trace]
  simp [LogMetricsParser.new]

/-- Poll loop on a status stream that never reaches a terminal state:
every run ends in the timed-out outcome. -/
theorem pollLoop_never_terminal (svc : Nat → QueryResponse) (query_id : String)
    (interval timeout : ℚ)
    (hnt : ∀ k, (svc k).status ∉ (["Failed", "Cancelled"] : List String) ∧
      (svc k).status ≠ "Complete") :
    ∀ fuel k, ∃ n, pollLoop svc query_id interval timeout fuel k =
      timedOutOutcome query_id n interval := by
  intro fuel
  induction fuel with
  | zero => intro k; exact ⟨k, rfl⟩
  | succ fuel ih =>
    intro k
    rw [pollLoop]
    by_cases hg : (k : ℚ) * interval < timeout
    · rw [if_pos hg, if_neg ((hnt k).1), if_neg ((hnt k).2)]
      exact ih (k + 1)
    · rw [if_neg hg]
      exact ⟨k, rfl⟩

/-- Poll loop steps past a run of non-terminal responses whose status
checks all fall inside the budget. -/
theorem pollLoop_skip (svc : Nat → QueryResponse) (query_id : String)
    (interval timeout : ℚ) :
    ∀ (j fuel k : Nat),
    (∀ i, i < j → (svc (k + i)).status ∉ (["Failed", "Cancelled"] : List String) ∧
      (svc (k + i)).status ≠ "Complete") →
    (∀ i, i < j → ((k + i : Nat) : ℚ) * interval < timeout) →
    pollLoop svc query_id interval timeout (fuel + j) k =
      pollLoop svc query_id interval timeout fuel (k + j) := by
  intro j
  induction j with
  | zero => intro fuel k _ _; rfl
  | succ j ih =>
    intro fuel k hnt hg
    have hstep : pollLoop svc query_id interval timeout (fuel + j + 1) k =
        pollLoop svc query_id interval timeout (fuel + j) (k + 1) := by
      rw [pollLoop]
      have h0 := hnt 0 (Nat.succ_pos j)
      have g0 := hg 0 (Nat.succ_pos j)
      rw [if_pos (by simpa using g0), if_neg (by simpa using h0.1),
        if_neg (by simpa using h0.2)]
    calc pollLoop svc query_id interval timeout (fuel + (j + 1)) k
        = pollLoop svc query_id interval timeout (fuel + j) (k + 1) := hstep
      _ = pollLoop svc query_id interval timeout fuel (k + 1 + j) := by
          refine ih fuel (k + 1) (fun i hi => ?_) (fun i hi => ?_)
          · have := hnt (i + 1) (Nat.succ_lt_succ hi)
            simpa [Nat.add_assoc, Nat.add_comm 1 i] using this
          · have := hg (i + 1) (Nat.succ_lt_succ hi)
            simpa [Nat.add_assoc, Nat.add_comm 1 i] using this
      _ = pollLoop svc query_id interval timeout fuel (k + (j + 1)) := by
          rw [Nat.add_assoc, Nat.add_comm 1 j]

/-- A status check that happens inside the budget has index below
`maxPolls` when the interval is positive. -/
theorem lt_maxPolls_of_guard (interval timeout : ℚ) (j : Nat)
    (hpos : 0 < interval) (hg : (j : ℚ) * interval < timeout) :
    j < maxPolls interval timeout := by
  have hdiv : (j : ℚ) < timeout / interval := (lt_div_iff₀ hpos).mpr hg
  have hceil : (j : ℚ) < (maxPolls interval timeout : ℚ) :=
    lt_of_lt_of_le hdiv (Nat.le_ceil _)
  exact_mod_cast hceil

/-- C1: whenever the remote status sequence for the submitted query
never reaches a terminal state (`Complete`, `Failed`, `Cancelled`),
`_get_metrics_results_sync` returns an empty record list with the
timeout warning logged and no error raised, and `get_metrics_for_job`
consequently returns the metrics table obtained from an empty record
list instead of an error. -/
theorem nonterminal_poll_times_out_returns_empty {MT ST TBL : Type}
    (client : LogsClient)
    (fin : List (Option String × String) → MT → ST → TBL)
    (interval timeout : ℚ) (job_name : String) (mt : MT) (st : ST)
    (jst jet : Option Int) (spfx : Option String) (now : Int)
    (hnt : ∀ k, (queryResponses client job_name jst jet spfx now k).status ∉
        (["Failed", "Cancelled"] : List String) ∧
      (queryResponses client job_name jst jet spfx now k).status ≠ "Complete") :
    (get_metrics_results_sync (queryResponses client job_name jst jet spfx now)
        (submittedQueryId client job_name jst jet spfx now) interval timeout).result =
      Except.ok [] ∧
    (get_metrics_results_sync (queryResponses client job_name jst jet spfx now)
        (submittedQueryId client job_name jst jet spfx now) interval timeout).warnings =
      [timeoutWarning (submittedQueryId client job_name jst jet spfx now)] ∧
    get_metrics_for_job client fin interval timeout job_name mt st jst jet spfx now =
      (Except.ok (parse_log_query_results fin [] mt st),
        [timeoutWarning (submittedQueryId client job_name jst jet spfx now)]) := by
  obtain ⟨n, hout⟩ := pollLoop_never_terminal
    (queryResponses client job_name jst jet spfx now)
    (submittedQueryId client job_name jst jet spfx now) interval timeout hnt
    (maxPolls interval timeout + 1) 0
  have houtcome : get_metrics_results_sync (queryResponses client job_name jst jet spfx now)
      (submittedQueryId client job_name jst jet spfx now) interval timeout =
      timedOutOutcome (submittedQueryId client job_name jst jet spfx now) n interval := hout
  refine ⟨by rw [houtcome]; rfl, by rw [houtcome]; rfl, ?_⟩
  rw [get_metrics_for_job, houtcome]
  rfl

/-- Witness for C1 at a stub that always answers `Running`. -/
theorem nonterminal_poll_times_out_returns_empty_witness :
    (get_metrics_results_sync
        (queryResponses ⟨fun _ => "q1", fun _ _ => ⟨"Running", []⟩⟩ "job-1" none none none 1000)
        (submittedQueryId ⟨fun _ => "q1", fun _ _ => ⟨"Running", []⟩⟩ "job-1" none none none 1000)
        1 10).result = Except.ok [] ∧
    (get_metrics_results_sync
        (queryResponses ⟨fun _ => "q1", fun _ _ => ⟨"Running", []⟩⟩ "job-1" none none none 1000)
        (submittedQueryId ⟨fun _ => "q1", fun _ _ => ⟨"Running", []⟩⟩ "job-1" none none none 1000)
        1 10).warnings =
      [timeoutWarning
        (submittedQueryId ⟨fun _ => "q1", fun _ _ => ⟨"Running", []⟩⟩ "job-1" none none none 1000)] ∧
    get_metrics_for_job ⟨fun _ => "q1", fun _ _ => ⟨"Running", []⟩⟩
        (fun tr (_ : Nat) (_ : Nat) => tr) 1 10 "job-1" 0 0 none none none 1000 =
      (Except.ok (parse_log_query_results (fun tr (_ : Nat) (_ : Nat) => tr) [] 0 0),
        [timeoutWarning
          (submittedQueryId ⟨fun _ => "q1", fun _ _ => ⟨"Running", []⟩⟩ "job-1" none none none 1000)]) :=
  nonterminal_poll_times_out_returns_empty ⟨fun _ => "q1", fun _ _ => ⟨"Running", []⟩⟩
    (fun tr (_ : Nat) (_ : Nat) => tr) 1 10 "job-1" 0 0 none none none 1000
    (fun _ =>
      ⟨(by decide : ("Running" : String) ∉ (["Failed", "Cancelled"] : List String)),
        (by decide : ("Running" : String) ≠ "Complete")⟩)

/-- C2: when every status before poll `j` is non-terminal, poll `j`
happens inside the budget and observes `Failed` or `Cancelled`, the
poller raises a `MetricsRetrievalError` whose message names the query
id and the observed status, issues exactly `j + 1` status checks (none
after the observation), and `get_metrics_for_job` propagates the
error. -/
theorem failed_or_cancelled_raises_and_stops_polling {MT ST TBL : Type}
    (client : LogsClient)
    (fin : List (Option String × String) → MT → ST → TBL)
    (interval timeout : ℚ) (job_name : String) (mt : MT) (st : ST)
    (jst jet : Option Int) (spfx : Option String) (now : Int) (j : Nat)
    (hpos : 0 < interval)
    (hrun : ∀ i, i < j → (queryResponses client job_name jst jet spfx now i).status ∉
        (["Failed", "Cancelled"] : List String) ∧
      (queryResponses client job_name jst jet spfx now i).status ≠ "Complete")
    (hg : (j : ℚ) * interval < timeout)
    (hfc : (queryResponses client job_name jst jet spfx now j).status ∈
      (["Failed", "Cancelled"] : List String)) :
    get_metrics_results_sync (queryResponses client job_name jst jet spfx now)
        (submittedQueryId client job_name jst jet spfx now) interval timeout =
      ⟨Except.error (failureMessage (submittedQueryId client job_name jst jet spfx now)
          (queryResponses client job_name jst jet spfx now j).status),
        [], j + 1, (j : ℚ) * interval⟩ ∧
    get_metrics_for_job client fin interval timeout job_name mt st jst jet spfx now =
      (Except.error (failureMessage (submittedQueryId client job_name jst jet spfx now)
          (queryResponses client job_name jst jet spfx now j).status), []) := by
  have hguards : ∀ i, i < j → ((0 + i : Nat) : ℚ) * interval < timeout := by
    intro i hi
    have hle : ((0 + i : Nat) : ℚ) * interval ≤ (j : ℚ) * interval := by
      have : ((0 + i : Nat) : ℚ) ≤ (j : ℚ) := by
        exact_mod_cast Nat.le_of_lt (by simpa using hi)
      exact mul_le_mul_of_nonneg_right this (le_of_lt hpos)
    exact lt_of_le_of_lt hle hg
  have hjm : j < maxPolls interval timeout := lt_maxPolls_of_guard interval timeout j hpos hg
  have hfuel : maxPolls interval timeout + 1 = (maxPolls interval timeout - j + 1) + j := by
    omega
  have hsync : get_metrics_results_sync (queryResponses client job_name jst jet spfx now)
      (submittedQueryId client job_name jst jet spfx now) interval timeout =
      ⟨Except.error (failureMessage (submittedQueryId client job_name jst jet spfx now)
          (queryResponses client job_name jst jet spfx now j).status),
        [], j + 1, (j : ℚ) * interval⟩ := by
    rw [get_metrics_results_sync, hfuel]
    rw [pollLoop_skip (queryResponses client job_name jst jet spfx now)
      (submittedQueryId client job_name jst jet spfx now) interval timeout j
      (maxPolls interval timeout - j + 1) 0
      (fun i hi => by simpa using hrun i hi) hguards]
    rw [Nat.zero_add, pollLoop]
    rw [if_pos hg, if_pos hfc]
  refine ⟨hsync, ?_⟩
  rw [get_metrics_for_job, hsync]
  rfl

/-- Witness for C2 at a stub that answers `Running` once and then
`Failed`. -/
theorem failed_or_cancelled_raises_and_stops_polling_witness :
    get_metrics_results_sync
        (queryResponses ⟨fun _ => "q2", fun _ k => if k = 0 then ⟨"Running", []⟩ else ⟨"Failed", []⟩⟩
          "job-2" none none none 1000)
        (submittedQueryId ⟨fun _ => "q2", fun _ k => if k = 0 then ⟨"Running", []⟩ else ⟨"Failed", []⟩⟩
          "job-2" none none none 1000) 1 10 =
      ⟨Except.error (failureMessage
          (submittedQueryId ⟨fun _ => "q2", fun _ k => if k = 0 then ⟨"Running", []⟩ else ⟨"Failed", []⟩⟩
            "job-2" none none none 1000)
          (queryResponses ⟨fun _ => "q2", fun _ k => if k = 0 then ⟨"Running", []⟩ else ⟨"Failed", []⟩⟩
            "job-2" none none none 1000 1).status),
        [], 1 + 1, ((1 : Nat) : ℚ) * 1⟩ ∧
    get_metrics_for_job ⟨fun _ => "q2", fun _ k => if k = 0 then ⟨"Running", []⟩ else ⟨"Failed", []⟩⟩
        (fun tr (_ : Nat) (_ : Nat) => tr) 1 10 "job-2" 0 0 none none none 1000 =
      (Except.error (failureMessage
          (submittedQueryId ⟨fun _ => "q2", fun _ k => if k = 0 then ⟨"Running", []⟩ else ⟨"Failed", []⟩⟩
            "job-2" none none none 1000)
          (queryResponses ⟨fun _ => "q2", fun _ k => if k = 0 then ⟨"Running", []⟩ else ⟨"Failed", []⟩⟩
            "job-2" none none none 1000 1).status), []) :=
  failed_or_cancelled_raises_and_stops_polling
    ⟨fun _ => "q2", fun _ k => if k = 0 then ⟨"Running", []⟩ else ⟨"Failed", []⟩⟩
    (fun tr (_ : Nat) (_ : Nat) => tr) 1 10 "job-2" 0 0 none none none 1000 1
    (by norm_num)
    (fun i hi => by
      rcases Nat.lt_one_iff.mp hi with rfl
      exact ⟨by decide, by decide⟩)
    (by norm_num)
    (by decide)

/-- C3: on the status sequence `Running, Running, Complete` with a
1-second interval and a 10-second budget, the poller issues exactly 3
status checks, sleeps one interval between consecutive checks (total
time slept is 2 intervals), and returns the records of the final
`Complete` response. -/
theorem running_running_complete_three_polls (query_id : String) (rs : List RawRecord) :
    get_metrics_results_sync
      (fun k => if k < 2 then ⟨"Running", []⟩ else ⟨"Complete", rs⟩) query_id 1 10 =
      ⟨Except.ok rs, [], 3, 2⟩ := by
  have h : maxPolls (1 : ℚ) 10 = 10 := by norm_num [maxPolls]
  rw [get_metrics_results_sync, h]
  show pollLoop _ query_id 1 10 (10 + 1) 0 = _
  rw [pollLoop]
  norm_num
  rw [pollLoop]
  norm_num
  rw [pollLoop]
  norm_num
  simp +decide

/-- C4 counterexample: a record whose `@message` field is present but
holds the empty string is not ingested, because `_parse_log_line`
tests the extracted message for Python truthiness rather than for
presence; the claim as stated predicts one ingest call for this
record, the code performs none. -/
theorem ingest_skips_record_with_empty_message :
    get_element_from_log_line "@message" [⟨"@message", ""⟩] = some "" ∧
    (([[⟨"@message", ""⟩]] : List RawRecord).foldl (fun p r => parse_log_line r p)
        LogMetricsParser.new).trace = [] ∧
    parse_log_query_results (fun tr (_ : Nat) (_ : Nat) => tr) [[⟨"@message", ""⟩]] 0 0 =
      ([] : List (Option String × String)) := by
  decide

/-- C4 (amended): the aggregator calls `parse_log_message` exactly once
per record whose `@message` field is present with a non-empty value, in
query-result order (the trace is the order-preserving `filterMap` of
the records), and calls `get_parsed_metrics` exactly once, after all
ingestion, with the caller's metric type and statistic. -/
theorem ingest_once_per_nonempty_message_record {MT ST TBL : Type}
    (fin : List (Option String × String) → MT → ST → TBL)
    (results : List RawRecord) (mt : MT) (st : ST) :
    (results.foldl (fun p r => parse_log_line r p) LogMetricsParser.new).trace =
      results.filterMap ingestOf ∧
    parse_log_query_results fin results mt st = fin (results.filterMap ingestOf) mt st := by
  constructor
  · rw [foldl_parse_trace]
    rfl
  · exact parse_log_query_results_eq fin results mt st

/-- C5: extraction of `@message` and `@timestamp` from a well-formed
record is total, and a record with no `@message` field yields `none`,
triggers no parser call, and contributes nothing to the metrics table:
deleting it from the query results leaves the table unchanged. -/
theorem missing_message_record_is_skipped {MT ST TBL : Type}
    (fin : List (Option String × String) → MT → ST → TBL)
    (r : RawRecord) (p : LogMetricsParser)
    (before after : List RawRecord) (mt : MT) (st : ST)
    (hnomsg : ∀ f ∈ r, f.field ≠ "@message") :
    get_element_from_log_line "@message" r = none ∧
    parse_log_line r p = p ∧
    parse_log_query_results fin (before ++ r :: after) mt st =
      parse_log_query_results fin (before ++ after) mt st := by
  have hget : get_element_from_log_line "@message" r = none := by
    unfold get_element_from_log_line
    rw [List.find?_eq_none.mpr (fun f hf => by simpa using hnomsg f hf)]
    rfl
  have hingest : ingestOf r = none := by
    unfold ingestOf
    rw [hget]
  refine ⟨hget, parse_log_line_of_ingestOf_none r p hingest, ?_⟩
  rw [parse_log_query_results_eq, parse_log_query_results_eq]
  simp [List.filterMap_append, List.filterMap_cons, hingest]

/-- Witness for C5 at a record holding only a timestamp. -/
theorem missing_message_record_is_skipped_witness :
    get_element_from_log_line "@message" [⟨"@timestamp", "t0"⟩] = none ∧
    parse_log_line [⟨"@timestamp", "t0"⟩] ⟨[(none, "m0")]⟩ = ⟨[(none, "m0")]⟩ ∧
    parse_log_query_results (fun tr (_ : Nat) (_ : Nat) => tr)
        ([] ++ [⟨"@timestamp", "t0"⟩] :: [[⟨"@message", "m1"⟩]]) 0 0 =
      parse_log_query_results (fun tr (_ : Nat) (_ : Nat) => tr) ([] ++ [[⟨"@message", "m1"⟩]]) 0 0 :=
  missing_message_record_is_skipped (fun tr (_ : Nat) (_ : Nat) => tr)
    [⟨"@timestamp", "t0"⟩] ⟨[(none, "m0")]⟩ [] [[⟨"@message", "m1"⟩]] 0 0 (by decide)

/-- C6: when neither `job_start_time` nor `job_end_time` is supplied,
the submitted query window ends at the current wall-clock time and
spans exactly `QUERY_DEFAULT_JOB_DURATION = 10800` seconds. -/
theorem default_window_is_three_hours (job_name : String) (spfx : Option String) (now : Int) :
    (buildStartQueryArgs job_name none none spfx now).endTime = now ∧
    (buildStartQueryArgs job_name none none spfx now).endTime -
      (buildStartQueryArgs job_name none none spfx now).startTime =
        QUERY_DEFAULT_JOB_DURATION ∧
    QUERY_DEFAULT_JOB_DURATION = 10800 := by
  refine ⟨rfl, ?_, by decide⟩
  show now - (now - QUERY_DEFAULT_JOB_DURATION) = QUERY_DEFAULT_JOB_DURATION
  exact sub_sub_cancel now QUERY_DEFAULT_JOB_DURATION

/-- C7: with `stream_prefix` omitted the submitted query uses the job
name as the stream filter, anchored at the start of the stream name by
the `^` of the pattern `/^{job_name}\//` (so streams are matched on a
leading `job_name/`, not on a substring), filters messages on the
marker `Metrics - `, targets the fixed log group, and caps results at
10000 records. -/
theorem omitted_stream_name_uses_job_name (job_name : String)
    (jst jet : Option Int) (now : Int) :
    (buildStartQueryArgs job_name jst jet none now).queryString =
      "fields @timestamp, @message | filter @logStream like /^" ++ job_name ++
        "\\// | filter @message like /Metrics - /" ∧
    (buildStartQueryArgs job_name jst jet none now).logGroupName = "/aws/braket/jobs" ∧
    (buildStartQueryArgs job_name jst jet none now).limit = 10000 :=
  ⟨rfl, rfl, rfl⟩

/-- C8: two `get_metrics_for_job` calls with identical inputs against a
deterministic stub (two invocations of the logs client that answer
every request identically) yield identical results, and each call
builds its table from a parser instance created fresh for that call:
the trace handed to `get_parsed_metrics` is the fold of that call's own
records starting from the empty trace of `LogMetricsParser.new`, so no
parser state carries over between calls. -/
theorem fetch_deterministic_and_parser_fresh {MT ST TBL : Type}
    (client1 client2 : LogsClient)
    (fin : List (Option String × String) → MT → ST → TBL)
    (interval timeout : ℚ) (job_name : String) (mt : MT) (st : ST)
    (jst jet : Option Int) (spfx : Option String) (now : Int)
    (hsq : ∀ args, client1.start_query args = client2.start_query args)
    (hgr : ∀ qid k, client1.get_query_results qid k = client2.get_query_results qid k) :
    get_metrics_for_job client1 fin interval timeout job_name mt st jst jet spfx now =
      get_metrics_for_job client2 fin interval timeout job_name mt st jst jet spfx now ∧
    ∀ results : List RawRecord,
      parse_log_query_results fin results mt st =
        fin ((results.foldl (fun p r => parse_log_line r p) LogMetricsParser.new).trace)
          mt st := by
  have hclient : client1 = client2 := by
    cases client1 with
    | mk sq1 gr1 =>
      cases client2 with
      | mk sq2 gr2 =>
        have h1 : sq1 = sq2 := funext fun args => hsq args
        have h2 : gr1 = gr2 := funext fun qid => funext fun k => hgr qid k
        rw [h1, h2]
  exact ⟨by rw [hclient], fun results => rfl⟩

/-- Witness for C8 at a stub that completes immediately with one
record. -/
theorem fetch_deterministic_and_parser_fresh_witness :
    get_metrics_for_job
        ⟨fun _ => "q8", fun _ _ => ⟨"Complete", [[⟨"@timestamp", "t"⟩, ⟨"@message", "m"⟩]]⟩⟩
        (fun tr (_ : Nat) (_ : Nat) => tr) 1 10 "job-8" 0 0 none none none 1000 =
      get_metrics_for_job
        ⟨fun _ => "q8", fun _ _ => ⟨"Complete", [[⟨"@timestamp", "t"⟩, ⟨"@message", "m"⟩]]⟩⟩
        (fun tr (_ : Nat) (_ : Nat) => tr) 1 10 "job-8" 0 0 none none none 1000 ∧
    ∀ results : List RawRecord,
      parse_log_query_results (fun tr (_ : Nat) (_ : Nat) => tr) results 0 0 =
        (results.foldl (fun p r => parse_log_line r p) LogMetricsParser.new).trace :=
  fetch_deterministic_and_parser_fresh
    ⟨fun _ => "q8", fun _ _ => ⟨"Complete", [[⟨"@timestamp", "t"⟩, ⟨"@message", "m"⟩]]⟩⟩
    ⟨fun _ => "q8", fun _ _ => ⟨"Complete", [[⟨"@timestamp", "t"⟩, ⟨"@message", "m"⟩]]⟩⟩
    (fun tr (_ : Nat) (_ : Nat) => tr) 1 10 "job-8" 0 0 none none none 1000
    (fun _ => rfl) (fun _ _ => rfl)

/-- C9: an explicit `0` passed as `job_start_time` or `job_end_time` is
falsy under Python `or` and is therefore treated exactly as an
unsupplied bound: the end time falls back to the current wall-clock
time and the start time to the effective end time minus 3 hours. -/
theorem zero_time_bounds_treated_as_unsupplied (job_name : String)
    (jst jet : Option Int) (spfx : Option String) (now : Int) :
    buildStartQueryArgs job_name jst (some 0) spfx now =
      buildStartQueryArgs job_name jst none spfx now ∧
    buildStartQueryArgs job_name (some 0) jet spfx now =
      buildStartQueryArgs job_name none jet spfx now ∧
    (buildStartQueryArgs job_name (some 0) (some 0) spfx now).endTime = now ∧
    (buildStartQueryArgs job_name (some 0) (some 0) spfx now).startTime =
      now - QUERY_DEFAULT_JOB_DURATION :=
  ⟨rfl, rfl, rfl, rfl⟩

/-- C10: with a non-positive poll timeout the guard of the poll loop
fails before the first status check, so the poller issues zero checks
and takes the warning-plus-empty-records path whatever the remote
status already is, and `get_metrics_for_job` returns the finalization
of an empty ingestion with no error raised. -/
theorem nonpositive_timeout_polls_zero {MT ST TBL : Type}
    (client : LogsClient)
    (fin : List (Option String × String) → MT → ST → TBL)
    (interval timeout : ℚ) (job_name : String) (mt : MT) (st : ST)
    (jst jet : Option Int) (spfx : Option String) (now : Int)
    (svc : Nat → QueryResponse) (query_id : String)
    (ht : timeout ≤ 0) :
    get_metrics_results_sync svc query_id interval timeout =
      timedOutOutcome query_id 0 interval ∧
    (get_metrics_results_sync svc query_id interval timeout).numPolls = 0 ∧
    get_metrics_for_job client fin interval timeout job_name mt st jst jet spfx now =
      (Except.ok (parse_log_query_results fin [] mt st),
        [timeoutWarning (submittedQueryId client job_name jst jet spfx now)]) := by
  have hpoll : ∀ (svc2 : Nat → QueryResponse) (qid : String),
      get_metrics_results_sync svc2 qid interval timeout =
        timedOutOutcome qid 0 interval := by
    intro svc2 qid
    rw [get_metrics_results_sync, pollLoop]
    rw [if_neg (by rw [Nat.cast_zero, zero_mul]; exact not_lt.mpr ht)]
  refine ⟨hpoll svc query_id, by rw [hpoll svc query_id]; rfl, ?_⟩
  rw [get_metrics_for_job, hpoll _ _]
  rfl

/-- Witness for C10: a zero timeout against a remote query that is
already `Failed` still follows the warning path. -/
theorem nonpositive_timeout_polls_zero_witness :
    get_metrics_results_sync (fun _ => ⟨"Failed", []⟩) "qx" 1 0 =
      timedOutOutcome "qx" 0 1 ∧
    (get_metrics_results_sync (fun _ => ⟨"Failed", []⟩) "qx" 1 0).numPolls = 0 ∧
    get_metrics_for_job ⟨fun _ => "q10", fun _ _ => ⟨"Failed", []⟩⟩
        (fun tr (_ : Nat) (_ : Nat) => tr) 1 0 "job-10" 0 0 none none none 1000 =
      (Except.ok (parse_log_query_results (fun tr (_ : Nat) (_ : Nat) => tr) [] 0 0),
        [timeoutWarning
          (submittedQueryId ⟨fun _ => "q10", fun _ _ => ⟨"Failed", []⟩⟩
            "job-10" none none none 1000)]) :=
  nonpositive_timeout_polls_zero ⟨fun _ => "q10", fun _ _ => ⟨"Failed", []⟩⟩
    (fun tr (_ : Nat) (_ : Nat) => tr) 1 0 "job-10" 0 0 none none none 1000
    (fun _ => ⟨"Failed", []⟩) "qx" le_rfl

end Braket
